import Mathlib

/-!
Shallow embedding of the usage-metering core of `src/main.py` (a Telegram bot
that meters per-user daily token quotas in front of a generative-text backend).

Modelling conventions:
* The SQLite `users` table (one row per `user_id`, columns `plan`,
  `tokens_remaining`, `last_reset`) is a function `Int → Option UserRecord`.
* ISO date strings (`last_reset`, `iso_today_utc()`) are calendar-day numbers
  (`Nat`); the code compares dates only for (in)equality and ISO strings
  compare like the days they denote.
* Python ints are `Int`; `int(len(text)/4)` on a nonnegative length is floor
  division.
* The asynchronous backend call `call_gemini` is an opaque outcome passed to
  the handler: either generated text or a failure (error status, exception or
  timeout all `raise` alike in the source).
-/

namespace QuotaBot

/-- The closed plan set, keys of `PLANS` in the source. -/
inductive Plan where
  | free
  | pro
  | premium
deriving DecidableEq, Repr

/-- `PLANS[plan]["daily_tokens"]` from the source. -/
def dailyTokens : Plan → Int
  | .free => 1000
  | .pro => 20000
  | .premium => 100000

/-- `DEFAULT_PLAN = "free"` from the source. -/
def DEFAULT_PLAN : String := "free"

/-- `MIN_OUTPUT_TOKENS = 20` from the source. -/
def MIN_OUTPUT_TOKENS : Int := 20

/-- Lookup of a plan name in `PLANS` (`plan in PLANS` / `PLANS[plan]`). -/
def planOfName : String → Option Plan
  | "free" => some Plan.free
  | "pro" => some Plan.pro
  | "premium" => some Plan.premium
  | _ => none

/-- One row of the `users` table: `(user_id, plan, tokens_remaining, last_reset)`;
the key `user_id` lives in the store, not the row. -/
structure UserRecord where
  plan : Plan
  tokens_remaining : Int
  last_reset : Nat
deriving DecidableEq, Repr

/-- The `users` table, keyed by Telegram user id. -/
abbrev Store := Int → Option UserRecord

/-- The freshly initialised database: no rows. -/
def emptyStore : Store := fun _ => none

/-- `INSERT OR REPLACE INTO users ... VALUES (uid, ...)`. -/
def storeSet (db : Store) (uid : Int) (row : UserRecord) : Store :=
  fun u => if u = uid then some row else db u

/-- `get_user_row` (src/main.py:101-105): SELECT the row for `uid`. -/
def getUserRow (db : Store) (uid : Int) : Option UserRecord :=
  db uid

/-- `create_user` (src/main.py:107-115): fall back to the default plan for an
unknown name, insert a row with the plan's full daily allowance anchored to
today. -/
def createUser (db : Store) (uid : Int) (planName : String) (today : Nat) : Store :=
  let plan := (planOfName planName).getD Plan.free
  storeSet db uid ⟨plan, dailyTokens plan, today⟩

/-- `update_user_tokens_and_plan` (src/main.py:117-128): `UPDATE users SET
tokens_remaining = ? [, plan = ?] WHERE user_id = ?` — a no-op when the row
does not exist. -/
def updateUserTokensAndPlan (db : Store) (uid : Int) (tokens : Int)
    (planOpt : Option Plan) : Store :=
  fun u =>
    if u = uid then
      (db u).map (fun row =>
        match planOpt with
        | some p => { row with tokens_remaining := tokens, plan := p }
        | none => { row with tokens_remaining := tokens })
    else db u

/-- The `UPDATE users SET tokens_remaining = ?, last_reset = ? WHERE user_id = ?`
issued inside `reset_user_daily_if_needed` (src/main.py:144-147). -/
def updateTokensAndLastReset (db : Store) (uid : Int) (tokens : Int)
    (today : Nat) : Store :=
  fun u =>
    if u = uid then
      (db u).map (fun row => { row with tokens_remaining := tokens, last_reset := today })
    else db u

/-- `reset_user_daily_if_needed` (src/main.py:130-150): create the row if
missing, then if `last_reset != today` reset tokens to the plan's daily
allowance and re-anchor; returns `(plan, tokens_remaining_after_reset)`.
The stored plan is a `Plan`, so `PLANS.get(plan, PLANS[DEFAULT_PLAN])` is
`dailyTokens row.plan`. The `none` fallback branch is unreachable:
`create_user` always inserts a row for `uid`. -/
def resetUserDailyIfNeeded (db : Store) (uid : Int) (today : Nat) :
    Store × Plan × Int :=
  let db1 :=
    match getUserRow db uid with
    | none => createUser db uid DEFAULT_PLAN today
    | some _ => db
  match getUserRow db1 uid with
  | none => (db1, Plan.free, 0)
  | some row =>
    if row.last_reset ≠ today then
      let tokens := dailyTokens row.plan
      (updateTokensAndLastReset db1 uid tokens today, row.plan, tokens)
    else
      (db1, row.plan, row.tokens_remaining)

/-- `set_user_plan` (src/main.py:152-162): `raise ValueError("Unknown plan")`
for a name outside `PLANS`; otherwise INSERT OR REPLACE the row with the new
plan's full allowance anchored to today. The error case returns the exception
message and leaves the store with the caller, unchanged. -/
def setUserPlan (db : Store) (uid : Int) (planName : String) (today : Nat) :
    Except String Store :=
  match planOfName planName with
  | none => Except.error "Unknown plan"
  | some plan => Except.ok (storeSet db uid ⟨plan, dailyTokens plan, today⟩)

/-- `estimate_tokens` (src/main.py:168-176): 1 for empty text, else
`max(1, int(len(text)/4))`. -/
def estimateTokens (text : String) : Int :=
  if text.length = 0 then 1
  else max 1 ((text.length : Int) / 4)

/-- Python `str.strip()`: drop leading and trailing whitespace. -/
def pyStrip (s : String) : String :=
  String.mk (((s.data.dropWhile Char.isWhitespace).reverse.dropWhile
    Char.isWhitespace).reverse)

/-- Outcome of `handle_message`'s quota checks (src/main.py:335-354). -/
inductive AuthResult where
  | quotaExhausted
  | insufficientHeadroom
  | authorized (inputTokens : Int) (maxOutputTokens : Int)
deriving DecidableEq, Repr

/-- The guard logic inlined in `handle_message` (src/main.py:335-354):
estimate input tokens; reject when `tokens_remaining <= 0`; reject when
`tokens_remaining - input_tokens < MIN_OUTPUT_TOKENS`; otherwise allow
`min(2048, max(MIN_OUTPUT_TOKENS, tokens_remaining - input_tokens))` output
tokens. -/
def authorizeRequest (tokens_remaining : Int) (text : String) : AuthResult :=
  let input_tokens := estimateTokens text
  if tokens_remaining ≤ 0 then AuthResult.quotaExhausted
  else if tokens_remaining - input_tokens < MIN_OUTPUT_TOKENS then
    AuthResult.insufficientHeadroom
  else
    AuthResult.authorized input_tokens
      (min 2048 (max MIN_OUTPUT_TOKENS (tokens_remaining - input_tokens)))

/-- Outcome of the `call_gemini` await in `handle_message` (src/main.py:366):
generated text, or any raised exception (non-200 status, transport error,
timeout). -/
inductive BackendResult where
  | ok (text : String)
  | failure
deriving DecidableEq, Repr

/-- The reply `handle_message` sends back (chunking of long texts elided). -/
inductive BotReply where
  | pleaseSendText
  | exhausted
  | notEnoughTokens
  | backendErrorMsg
  | modelReturnedNoText
  | generated (t : String)
deriving DecidableEq, Repr

/-- `handle_message` (src/main.py:317-398): reject blank text; ensure the user
exists and is daily-reset; run the quota guard; on backend failure reply with
an error and return (no store write after the reset); on success debit
`input_tokens + output_tokens` clamped at zero and reply with the text (or a
notice when the text is blank). -/
def handleMessage (db : Store) (uid : Int) (text : String) (today : Nat)
    (backend : BackendResult) : Store × BotReply :=
  if pyStrip text = "" then (db, BotReply.pleaseSendText)
  else
    let res := resetUserDailyIfNeeded db uid today
    let db1 := res.1
    let tokens_remaining := res.2.2
    match authorizeRequest tokens_remaining text with
    | AuthResult.quotaExhausted => (db1, BotReply.exhausted)
    | AuthResult.insufficientHeadroom => (db1, BotReply.notEnoughTokens)
    | AuthResult.authorized input_tokens _maxOut =>
      match backend with
      | BackendResult.failure => (db1, BotReply.backendErrorMsg)
      | BackendResult.ok gen_text =>
        let output_tokens := estimateTokens gen_text
        let total_used := input_tokens + output_tokens
        let new_remaining := max 0 (tokens_remaining - total_used)
        let db2 := updateUserTokensAndPlan db1 uid new_remaining none
        if pyStrip gen_text = "" then (db2, BotReply.modelReturnedNoText)
        else (db2, BotReply.generated gen_text)

/-- The ledger operations of the metering core, as the source performs them:
`create` is `create_user`, `ensureFresh` is `reset_user_daily_if_needed`,
`debit` is the success-path deduction of `handle_message` (src/main.py:372-379,
amount `estimate_tokens(text) + estimate_tokens(gen_text)`), `setPlan` is
`set_user_plan`. -/
inductive LedgerOp where
  | create (planName : String)
  | ensureFresh
  | debit (text gen_text : String)
  | setPlan (planName : String)

/-- Apply one ledger operation for user `uid` on day `today`. `debit` reads the
current row and writes `max(0, tokens_remaining - total_used)` as
src/main.py:378-379 does; a failed `set_user_plan` raises and leaves the store
unchanged. -/
def applyOp (uid : Int) (today : Nat) (db : Store) : LedgerOp → Store
  | LedgerOp.create p => createUser db uid p today
  | LedgerOp.ensureFresh => (resetUserDailyIfNeeded db uid today).1
  | LedgerOp.debit text gen_text =>
    match getUserRow db uid with
    | some row =>
      let total_used := estimateTokens text + estimateTokens gen_text
      updateUserTokensAndPlan db uid (max 0 (row.tokens_remaining - total_used)) none
    | none => db
  | LedgerOp.setPlan p =>
    match setUserPlan db uid p today with
    | Except.ok db1 => db1
    | Except.error _ => db

/-- Run a sequence of ledger operations, each tagged with the day it runs on. -/
def runOps (uid : Int) (db : Store) : List (LedgerOp × Nat) → Store
  | [] => db
  | (op, today) :: rest => runOps uid (applyOp uid today db op) rest

/-- The quota invariant: every stored row has
`0 ≤ tokens_remaining ≤ dailyTokens plan`. -/
def StoreInv (db : Store) : Prop :=
  ∀ uid row, db uid = some row →
    0 ≤ row.tokens_remaining ∧ row.tokens_remaining ≤ dailyTokens row.plan

/-- The two observable store accesses of one in-flight `handle_message` for the
purpose of interleaving: the read of `tokens_remaining`
(`reset_user_daily_if_needed`, src/main.py:332) and the write of
`max(0, tokens_remaining - total_used)` (src/main.py:378-379). The backend
await at src/main.py:366 sits between them, so two handlers for the same user
can interleave these steps arbitrarily, each respecting its own read-then-write
order. -/
inductive DebitStep where
  | read1
  | write1
  | read2
  | write2
deriving DecidableEq, Repr

/-- Shared state for two in-flight debits against one user row: the stored
`tokens_remaining`, plus each handler's captured read (none before its read
step runs). -/
structure DebitState where
  remaining : Int
  captured1 : Option Int
  captured2 : Option Int
deriving DecidableEq, Repr

/-- One scheduler step: a read captures the current stored value; a write
stores `max 0 (captured - amount)` computed from that handler's earlier read,
exactly as src/main.py:378-379 computes `new_remaining` from the
`tokens_remaining` read at src/main.py:332. A write before its own read is a
no-op (such schedules are not valid interleavings anyway). -/
def debitStep (amount : Int) (s : DebitState) : DebitStep → DebitState
  | DebitStep.read1 => { s with captured1 := some s.remaining }
  | DebitStep.read2 => { s with captured2 := some s.remaining }
  | DebitStep.write1 =>
    match s.captured1 with
    | some v => { s with remaining := max 0 (v - amount) }
    | none => s
  | DebitStep.write2 =>
    match s.captured2 with
    | some v => { s with remaining := max 0 (v - amount) }
    | none => s

/-- Run a schedule of steps over the shared state. -/
def runDebits (amount : Int) (s : DebitState) : List DebitStep → DebitState
  | [] => s
  | st :: rest => runDebits amount (debitStep amount s st) rest

/-- A schedule is a valid interleaving of the two debits when it is a
permutation of the four steps in which each handler reads before it writes. -/
def isInterleaving (l : List DebitStep) : Bool :=
  l.length = 4 &&
  l.contains DebitStep.read1 && l.contains DebitStep.write1 &&
  l.contains DebitStep.read2 && l.contains DebitStep.write2 &&
  l.indexOf DebitStep.read1 < l.indexOf DebitStep.write1 &&
  l.indexOf DebitStep.read2 < l.indexOf DebitStep.write2

end QuotaBot

namespace QuotaBot

set_option maxRecDepth 4000

/-! Helper lemmas. -/

/-- The estimator never returns less than 1. -/
theorem estimateTokens_ge_one (s : String) : 1 ≤ estimateTokens s := by
  unfold estimateTokens
  split
  · exact le_refl 1
  · exact le_max_left 1 _

/-- Every plan allowance is nonnegative. -/
theorem dailyTokens_nonneg (p : Plan) : 0 ≤ dailyTokens p := by
  cases p <;> decide

/-- A fresh row (anchored to today) makes `reset_user_daily_if_needed` a
pure read. -/
theorem reset_fresh {db : Store} {uid : Int} {p : Plan} {r : Int} {today : Nat}
    (hrow : db uid = some ⟨p, r, today⟩) :
    resetUserDailyIfNeeded db uid today = (db, p, r) := by
  simp [resetUserDailyIfNeeded, getUserRow, hrow]

/-- A stale row (anchor not equal to today) is reset to the plan's full
allowance anchored to today. -/
theorem reset_stale {db : Store} {uid : Int} {p : Plan} {r : Int} {a today : Nat}
    (hrow : db uid = some ⟨p, r, a⟩) (hne : a ≠ today) :
    resetUserDailyIfNeeded db uid today
      = (updateTokensAndLastReset db uid (dailyTokens p) today, p, dailyTokens p) := by
  simp [resetUserDailyIfNeeded, getUserRow, hrow, hne]

/-- A missing row is created with the default plan and full allowance. -/
theorem reset_missing {db : Store} {uid : Int} {today : Nat}
    (hmiss : db uid = none) :
    resetUserDailyIfNeeded db uid today
      = (createUser db uid DEFAULT_PLAN today, Plan.free, dailyTokens Plan.free) := by
  simp [resetUserDailyIfNeeded, getUserRow, hmiss, createUser, storeSet,
    DEFAULT_PLAN, planOfName]

/-- Reading the updated user back after the reset UPDATE. -/
theorem updateTokensAndLastReset_self {db : Store} {uid : Int} {row : UserRecord}
    (hrow : db uid = some row) (tokens : Int) (today : Nat) :
    updateTokensAndLastReset db uid tokens today uid
      = some { row with tokens_remaining := tokens, last_reset := today } := by
  simp [updateTokensAndLastReset, hrow]

/-- Reading the updated user back after the debit UPDATE. -/
theorem updateUserTokensAndPlan_self {db : Store} {uid : Int} {row : UserRecord}
    (hrow : db uid = some row) (tokens : Int) :
    updateUserTokensAndPlan db uid tokens none uid
      = some { row with tokens_remaining := tokens } := by
  simp [updateUserTokensAndPlan, hrow]

/-- Success path of `handle_message` for a fresh, sufficiently funded record:
the store write and the reply, in closed form. -/
theorem handleMessage_ok_eq {db : Store} {uid : Int} {p : Plan} {r : Int}
    {today : Nat} {text : String} (gen_text : String)
    (hrow : db uid = some ⟨p, r, today⟩) (htext : pyStrip text ≠ "")
    (hpos : 0 < r) (hhead : MIN_OUTPUT_TOKENS ≤ r - estimateTokens text) :
    handleMessage db uid text today (BackendResult.ok gen_text)
      = (updateUserTokensAndPlan db uid
          (max 0 (r - (estimateTokens text + estimateTokens gen_text))) none,
         if pyStrip gen_text = "" then BotReply.modelReturnedNoText
         else BotReply.generated gen_text) := by
  have h0 : ¬ r ≤ 0 := not_le.mpr hpos
  have h1 : ¬ (r - estimateTokens text < MIN_OUTPUT_TOKENS) := not_lt.mpr hhead
  simp [handleMessage, htext, reset_fresh hrow, authorizeRequest, h0, h1]
  by_cases hg : pyStrip gen_text = "" <;> simp [hg]

end QuotaBot

namespace QuotaBot

/-- INSERT OR REPLACE of an in-bounds row preserves the quota invariant. -/
theorem storeSet_inv {db : Store} {uid : Int} {row : UserRecord} (h : StoreInv db)
    (h0 : 0 ≤ row.tokens_remaining) (h1 : row.tokens_remaining ≤ dailyTokens row.plan) :
    StoreInv (storeSet db uid row) := by
  intro u rr hrr
  by_cases hu : u = uid
  · simp [storeSet, hu] at hrr
    subst hrr
    exact ⟨h0, h1⟩
  · simp [storeSet, hu] at hrr
    exact h u rr hrr

/-- `create_user` preserves the quota invariant: the new row carries its plan's
full allowance. -/
theorem createUser_inv {db : Store} {uid : Int} (planName : String) (today : Nat)
    (h : StoreInv db) : StoreInv (createUser db uid planName today) := by
  unfold createUser
  exact storeSet_inv h (dailyTokens_nonneg _) (le_refl _)

/-- `reset_user_daily_if_needed` preserves the quota invariant. -/
theorem reset_inv {db : Store} (uid : Int) (today : Nat) (h : StoreInv db) :
    StoreInv (resetUserDailyIfNeeded db uid today).1 := by
  cases hrow : db uid with
  | none =>
    rw [reset_missing hrow]
    exact createUser_inv _ _ h
  | some row =>
    obtain ⟨p, r, a⟩ := row
    by_cases ha : a = today
    · subst ha
      rw [reset_fresh hrow]
      exact h
    · rw [reset_stale hrow ha]
      dsimp only
      intro u rr hrr
      by_cases hu : u = uid
      · subst hu
        rw [updateTokensAndLastReset_self hrow] at hrr
        injection hrr with hrr
        subst hrr
        exact ⟨dailyTokens_nonneg _, le_refl _⟩
      · simp [updateTokensAndLastReset, hu] at hrr
        exact h u rr hrr

/-- Each ledger operation preserves the quota invariant. -/
theorem applyOp_inv {db : Store} (uid : Int) (today : Nat) (op : LedgerOp)
    (h : StoreInv db) : StoreInv (applyOp uid today db op) := by
  cases op with
  | create planName => exact createUser_inv planName today h
  | ensureFresh => exact reset_inv uid today h
  | debit text gen_text =>
    cases hrow : getUserRow db uid with
    | none =>
      simp only [applyOp, hrow]
      exact h
    | some row =>
      simp only [applyOp, hrow]
      intro u rr hrr
      by_cases hu : u = uid
      · subst hu
        have hrow2 : db u = some row := hrow
        rw [updateUserTokensAndPlan_self hrow2] at hrr
        injection hrr with hrr
        subst hrr
        refine ⟨le_max_left 0 _, max_le (dailyTokens_nonneg _) ?_⟩
        have htot : 0 ≤ estimateTokens text + estimateTokens gen_text := by
          have h1 := estimateTokens_ge_one text
          have h2 := estimateTokens_ge_one gen_text
          linarith
        exact le_trans (sub_le_self _ htot) (h u row hrow2).2
      · simp [updateUserTokensAndPlan, hu] at hrr
        exact h u rr hrr
  | setPlan planName =>
    cases hp : planOfName planName with
    | none =>
      simp only [applyOp, setUserPlan, hp]
      exact h
    | some p =>
      simp only [applyOp, setUserPlan, hp]
      exact storeSet_inv h (dailyTokens_nonneg _) (le_refl _)

end QuotaBot

namespace QuotaBot

set_option maxRecDepth 8000

/-! Claim theorems. -/

/-- C1 (amended): for a fresh record with remaining `r` and an authorized
request, a backend failure (error, non-success status or timeout) leaves the
store completely unchanged — the stored remaining stays `r`; nothing, not even
the estimated input cost, is charged. The handler replies with a generic error
message and returns before any debit. -/
theorem backendFailure_no_charge (db : Store) (uid : Int) (p : Plan) (r : Int)
    (today : Nat) (text : String)
    (hrow : db uid = some ⟨p, r, today⟩) (htext : pyStrip text ≠ "")
    (hpos : 0 < r) (hhead : MIN_OUTPUT_TOKENS ≤ r - estimateTokens text) :
    handleMessage db uid text today BackendResult.failure
      = (db, BotReply.backendErrorMsg) := by
  have h0 : ¬ r ≤ 0 := not_le.mpr hpos
  have h1 : ¬ (r - estimateTokens text < MIN_OUTPUT_TOKENS) := not_lt.mpr hhead
  simp [handleMessage, htext, reset_fresh hrow, authorizeRequest, h0, h1]

/-- C1 witness: free-plan user with `remaining = 1000`, input of 200 characters
(estimated at 50 units), backend failure: the record is untouched. -/
theorem backendFailure_no_charge_witness :
    handleMessage (fun u => if u = 7 then some ⟨Plan.free, 1000, 0⟩ else none) 7
        (String.mk (List.replicate 200 'x')) 0 BackendResult.failure
      = ((fun u => if u = 7 then some ⟨Plan.free, 1000, 0⟩ else none),
         BotReply.backendErrorMsg) :=
  backendFailure_no_charge _ 7 Plan.free 1000 0 _ (by decide) (by decide)
    (by decide) (by decide)

/-- C1 counterexample: with `remaining = 1000` and input estimated at 50 units,
a backend failure leaves the stored remaining at `1000`, not `1000 - 50 = 950`:
the claim that the input cost alone is charged after a failed generation is
false of the code, which charges nothing. -/
theorem backendFailure_counterexample :
    estimateTokens (String.mk (List.replicate 200 'x')) = 50 ∧
    (handleMessage (fun u => if u = 7 then some ⟨Plan.free, 1000, 0⟩ else none) 7
        (String.mk (List.replicate 200 'x')) 0 BackendResult.failure).1 7
      = some ⟨Plan.free, 1000, 0⟩ ∧
    (handleMessage (fun u => if u = 7 then some ⟨Plan.free, 1000, 0⟩ else none) 7
        (String.mk (List.replicate 200 'x')) 0 BackendResult.failure).1 7
      ≠ some ⟨Plan.free, 1000 - 50, 0⟩ := by
  refine ⟨by decide, by decide, by decide⟩

/-- C2 (code bug): against a record with `remaining = 500`, two concurrent
debits of 300 — each a read of `tokens_remaining` (src/main.py:332) followed,
after the backend await, by a write of `max(0, read - 300)` (src/main.py:379)
— do NOT leave `remaining = 0` under every interleaving: the valid
interleaving in which both handlers read before either writes leaves
`remaining = 200`, losing one debit; only fully serialized schedules give 0. -/
theorem concurrentDebit_lost_update :
    isInterleaving
        [DebitStep.read1, DebitStep.read2, DebitStep.write1, DebitStep.write2]
      = true ∧
    (runDebits 300 ⟨500, none, none⟩
        [DebitStep.read1, DebitStep.read2, DebitStep.write1, DebitStep.write2]).remaining
      = 200 ∧
    (200 : Int) ≠ 0 ∧
    (runDebits 300 ⟨500, none, none⟩
        [DebitStep.read1, DebitStep.write1, DebitStep.read2, DebitStep.write2]).remaining
      = 0 := by
  refine ⟨by decide, by decide, by decide, by decide⟩

/-- C3: starting from any store satisfying the quota invariant
`0 ≤ remaining ≤ allowance(plan)` (in particular the empty store), every
finite sequence of ledger operations — create, daily reset, debit, set_plan —
keeps the invariant after each completed operation (every prefix of `ops` is
itself such a sequence). -/
theorem ledger_invariant (uid : Int) (ops : List (LedgerOp × Nat)) (db : Store)
    (h : StoreInv db) : StoreInv (runOps uid db ops) := by
  induction ops generalizing db with
  | nil => exact h
  | cons hd tl ih =>
    obtain ⟨op, d⟩ := hd
    exact ih _ (applyOp_inv uid d op h)

/-- C3 witness: the invariant holds after a concrete operation sequence on the
empty store. -/
theorem ledger_invariant_witness :
    StoreInv (runOps 7 emptyStore
      [(LedgerOp.create "free", 0),
       (LedgerOp.debit "hellohey" "some generated reply text", 0),
       (LedgerOp.ensureFresh, 1),
       (LedgerOp.setPlan "pro", 1)]) :=
  ledger_invariant 7 _ emptyStore (fun _ _ h => Option.noConfusion h)

/-- C4: for a fresh record with remaining `r ≥ 0` and input cost
`c = estimateTokens text`, the guard rejects with quota-exhausted when `r = 0`,
otherwise rejects with insufficient-headroom when `r - c < MIN_OUTPUT_TOKENS`,
and otherwise authorizes with ceiling
`min 2048 (max MIN_OUTPUT_TOKENS (r - c))`, i.e. `r - c` clamped between the
floor 20 and the cap 2048. -/
theorem authorizeRequest_spec (r : Int) (text : String) (hr : 0 ≤ r) :
    authorizeRequest r text =
      (if r = 0 then AuthResult.quotaExhausted
       else if r - estimateTokens text < MIN_OUTPUT_TOKENS then
         AuthResult.insufficientHeadroom
       else AuthResult.authorized (estimateTokens text)
         (min 2048 (max MIN_OUTPUT_TOKENS (r - estimateTokens text)))) := by
  unfold authorizeRequest
  rcases eq_or_lt_of_le hr with h | h
  · simp [← h]
  · have h0 : ¬ r ≤ 0 := not_le.mpr h
    have h1 : r ≠ 0 := ne_of_gt h
    simp [h0, h1]

/-- C4 witness: `remaining = 10`, text of 20 characters (estimate 5),
`10 - 5 < 20` — rejected with insufficient headroom. -/
theorem authorizeRequest_spec_witness :
    authorizeRequest 10 (String.mk (List.replicate 20 'a'))
      = AuthResult.insufficientHeadroom := by
  have h := authorizeRequest_spec 10 (String.mk (List.replicate 20 'a')) (by decide)
  rw [h]
  decide

end QuotaBot

namespace QuotaBot

set_option maxRecDepth 8000

/-- C5: for an authorized request against a fresh record with remaining `r`,
when generation succeeds with `gen_text` the total debited is
`estimateTokens text + estimateTokens gen_text` and the new stored remaining
is `max 0 (r - total)`, never negative. -/
theorem successPath_debit (db : Store) (uid : Int) (p : Plan) (r : Int)
    (today : Nat) (text gen_text : String)
    (hrow : db uid = some ⟨p, r, today⟩) (htext : pyStrip text ≠ "")
    (hpos : 0 < r) (hhead : MIN_OUTPUT_TOKENS ≤ r - estimateTokens text) :
    (handleMessage db uid text today (BackendResult.ok gen_text)).1 uid
      = some ⟨p, max 0 (r - (estimateTokens text + estimateTokens gen_text)),
              today⟩ := by
  rw [handleMessage_ok_eq gen_text hrow htext hpos hhead]
  exact updateUserTokensAndPlan_self hrow _

/-- C5 witness: a new free-plan user (record just created: allowance 1000,
anchored today) sends an 8-character input (estimate 2) and the backend
returns a 160-character text (estimate 40): final remaining is
`1000 - 2 - 40 = 958`. -/
theorem successPath_debit_witness :
    (handleMessage (createUser emptyStore 7 "free" 0) 7
        (String.mk (List.replicate 8 'h')) 0
        (BackendResult.ok (String.mk (List.replicate 160 'y')))).1 7
      = some ⟨Plan.free, 958, 0⟩ := by
  have h := successPath_debit (createUser emptyStore 7 "free" 0) 7 Plan.free 1000 0
    (String.mk (List.replicate 8 'h')) (String.mk (List.replicate 160 'y'))
    (by decide) (by decide) (by decide) (by decide)
  rw [h]
  decide

/-- C6: for an existing record, `ensure_fresh` leaves the record unchanged and
returns the stored `(plan, remaining)` when the anchor equals today; when the
anchor is strictly before today it resets remaining to the plan's allowance
and the anchor to today before returning; and a second call on the same day is
a no-op. -/
theorem ensureFresh_spec (db : Store) (uid : Int) (p : Plan) (r : Int)
    (a today : Nat) (hrow : db uid = some ⟨p, r, a⟩) :
    (a = today → resetUserDailyIfNeeded db uid today = (db, p, r)) ∧
    (a < today →
      (resetUserDailyIfNeeded db uid today).1 uid
          = some ⟨p, dailyTokens p, today⟩ ∧
      (resetUserDailyIfNeeded db uid today).2 = (p, dailyTokens p)) ∧
    resetUserDailyIfNeeded (resetUserDailyIfNeeded db uid today).1 uid today
      = resetUserDailyIfNeeded db uid today := by
  refine ⟨?_, ?_, ?_⟩
  · intro ha
    subst ha
    exact reset_fresh hrow
  · intro ha
    have hne : a ≠ today := ne_of_lt ha
    rw [reset_stale hrow hne]
    exact ⟨updateTokensAndLastReset_self hrow _ _, rfl⟩
  · by_cases ha : a = today
    · subst ha
      rw [reset_fresh hrow]
      exact reset_fresh hrow
    · rw [reset_stale hrow ha]
      exact reset_fresh (updateTokensAndLastReset_self hrow _ _)

/-- C6 witness: a free-plan record anchored yesterday (day 0) with remaining 0,
refreshed on day 1, ends with remaining 1000 and anchor 1. -/
theorem ensureFresh_spec_witness :
    (resetUserDailyIfNeeded
        (fun u => if u = 7 then some ⟨Plan.free, 0, 0⟩ else none) 7 1).1 7
      = some ⟨Plan.free, 1000, 1⟩ ∧
    (resetUserDailyIfNeeded
        (fun u => if u = 7 then some ⟨Plan.free, 0, 0⟩ else none) 7 1).2
      = (Plan.free, 1000) := by
  have h := (ensureFresh_spec
    (fun u => if u = 7 then some ⟨Plan.free, 0, 0⟩ else none) 7
    Plan.free 0 0 1 (by decide)).2.1 (by decide)
  exact ⟨h.1, h.2⟩

/-- C7: `set_user_plan` fails with the unknown-plan error, leaving the record
with the caller unchanged, exactly when the plan name is outside the closed
plan set; on success it stores the new plan with its full daily allowance
anchored to today. -/
theorem setUserPlan_spec (db : Store) (uid : Int) (planName : String)
    (today : Nat) :
    (setUserPlan db uid planName today = Except.error "Unknown plan"
      ↔ planOfName planName = none) ∧
    (∀ p, planOfName planName = some p →
      setUserPlan db uid planName today
        = Except.ok (storeSet db uid ⟨p, dailyTokens p, today⟩)) := by
  unfold setUserPlan
  cases h : planOfName planName <;> simp [h]

/-- C7 witness: a free-plan user with remaining 3 moved to `pro` on day 5 ends
with plan `pro`, remaining 20000, anchor 5; and the name `gold` is rejected. -/
theorem setUserPlan_spec_witness :
    (setUserPlan (fun u => if u = 7 then some ⟨Plan.free, 3, 0⟩ else none)
        7 "pro" 5).toOption.map (fun db1 => db1 7)
      = some (some ⟨Plan.pro, 20000, 5⟩) ∧
    setUserPlan (fun u => if u = 7 then some ⟨Plan.free, 3, 0⟩ else none)
        7 "gold" 5
      = Except.error "Unknown plan" := by
  constructor
  · have h := (setUserPlan_spec
      (fun u => if u = 7 then some ⟨Plan.free, 3, 0⟩ else none) 7 "pro" 5).2
      Plan.pro (by decide)
    rw [h]
    decide
  · exact (setUserPlan_spec
      (fun u => if u = 7 then some ⟨Plan.free, 3, 0⟩ else none) 7 "gold" 5).1.mpr
      (by decide)

/-- C8 (amended): the estimator always returns an integer cost at least 1 and
is a deterministic pure function of the text's length; the empty text costs
exactly 1. (Whitespace-only text is costed by its length like any other text,
so a whitespace-only text of length at least 8 costs more than 1.) -/
theorem estimateTokens_spec (s t : String) :
    1 ≤ estimateTokens s ∧
    (s.length = t.length → estimateTokens s = estimateTokens t) ∧
    (s.length = 0 → estimateTokens s = 1) := by
  refine ⟨estimateTokens_ge_one s, ?_, ?_⟩
  · intro h
    unfold estimateTokens
    rw [h]
  · intro h
    unfold estimateTokens
    simp [h]

/-- C8 counterexample: eight spaces are whitespace-only, yet the estimator
returns 2, not the claimed minimum cost of 1. -/
theorem estimateTokens_whitespace_counterexample :
    (String.mk (List.replicate 8 ' ')).data.all Char.isWhitespace = true ∧
    estimateTokens (String.mk (List.replicate 8 ' ')) = 2 ∧
    estimateTokens (String.mk (List.replicate 8 ' ')) ≠ 1 := by
  refine ⟨by decide, by decide, by decide⟩

/-- C8 witness: cost at least 1, equal estimates for equal lengths, and the
empty text costs exactly 1, at concrete inputs. -/
theorem estimateTokens_spec_witness :
    1 ≤ estimateTokens "abcd" ∧
    estimateTokens "abcd" = estimateTokens "wxyz" ∧
    estimateTokens "" = 1 :=
  ⟨(estimateTokens_spec "abcd" "wxyz").1,
   (estimateTokens_spec "abcd" "wxyz").2.1 (by decide),
   (estimateTokens_spec "" "").2.2 (by decide)⟩

/-- C9: for an authorized request that succeeds, the amount debited is at
least `input_cost + 1` (the estimator never returns less than 1); in
particular an empty generated text is charged `input_cost + 1` while the user
only receives the no-text notice. -/
theorem emptyOutput_still_charged (db : Store) (uid : Int) (p : Plan) (r : Int)
    (today : Nat) (text : String)
    (hrow : db uid = some ⟨p, r, today⟩) (htext : pyStrip text ≠ "")
    (hpos : 0 < r) (hhead : MIN_OUTPUT_TOKENS ≤ r - estimateTokens text) :
    (∀ gen_text, estimateTokens text + 1
        ≤ estimateTokens text + estimateTokens gen_text) ∧
    (handleMessage db uid text today (BackendResult.ok "")).1 uid
      = some ⟨p, max 0 (r - (estimateTokens text + 1)), today⟩ ∧
    (handleMessage db uid text today (BackendResult.ok "")).2
      = BotReply.modelReturnedNoText := by
  refine ⟨fun gen_text => add_le_add_left (estimateTokens_ge_one gen_text) _,
    ?_, ?_⟩
  · rw [handleMessage_ok_eq "" hrow htext hpos hhead]
    exact updateUserTokensAndPlan_self hrow _
  · rw [handleMessage_ok_eq "" hrow htext hpos hhead]
    rfl

/-- C9 witness: remaining 1000, 8-character input (estimate 2), backend
returns the empty text: the user is charged 3 units (remaining 997) and
receives only the no-text notice. -/
theorem emptyOutput_still_charged_witness :
    estimateTokens (String.mk (List.replicate 8 'h')) + 1
      ≤ estimateTokens (String.mk (List.replicate 8 'h'))
        + estimateTokens "anything" ∧
    (handleMessage (fun u => if u = 7 then some ⟨Plan.free, 1000, 0⟩ else none)
        7 (String.mk (List.replicate 8 'h')) 0 (BackendResult.ok "")).1 7
      = some ⟨Plan.free, 997, 0⟩ ∧
    (handleMessage (fun u => if u = 7 then some ⟨Plan.free, 1000, 0⟩ else none)
        7 (String.mk (List.replicate 8 'h')) 0 (BackendResult.ok "")).2
      = BotReply.modelReturnedNoText := by
  have h := emptyOutput_still_charged
    (fun u => if u = 7 then some ⟨Plan.free, 1000, 0⟩ else none) 7
    Plan.free 1000 0 (String.mk (List.replicate 8 'h'))
    (by decide) (by decide) (by decide) (by decide)
  refine ⟨h.1 "anything", ?_, h.2.2⟩
  rw [h.2.1]
  decide

/-- C10: the freshness check resets remaining to the plan's full allowance and
the anchor to today whenever the stored anchor differs from today in either
direction — the code compares `last_reset != today`, so an anchor strictly
later than today also triggers a reset. -/
theorem reset_on_any_anchor_mismatch (db : Store) (uid : Int) (p : Plan)
    (r : Int) (a today : Nat)
    (hrow : db uid = some ⟨p, r, a⟩) (hne : a ≠ today) :
    (resetUserDailyIfNeeded db uid today).1 uid
        = some ⟨p, dailyTokens p, today⟩ ∧
    (resetUserDailyIfNeeded db uid today).2 = (p, dailyTokens p) := by
  rw [reset_stale hrow hne]
  exact ⟨updateTokensAndLastReset_self hrow _ _, rfl⟩

/-- C10 witness: a record anchored on day 5, refreshed on the earlier day 3
(anchor strictly later than today), is still reset to the full allowance with
anchor 3. -/
theorem reset_on_any_anchor_mismatch_witness :
    3 < 5 ∧
    (resetUserDailyIfNeeded
        (fun u => if u = 7 then some ⟨Plan.free, 123, 5⟩ else none) 7 3).1 7
      = some ⟨Plan.free, 1000, 3⟩ ∧
    (resetUserDailyIfNeeded
        (fun u => if u = 7 then some ⟨Plan.free, 123, 5⟩ else none) 7 3).2
      = (Plan.free, 1000) := by
  have h := reset_on_any_anchor_mismatch
    (fun u => if u = 7 then some ⟨Plan.free, 123, 5⟩ else none) 7
    Plan.free 123 5 3 (by decide) (by decide)
  exact ⟨by decide, h.1, h.2⟩

end QuotaBot
